import Mathlib

/-!
# Verification of the easy_ffmpeg compatibility matrix and video probe

A shallow embedding, in Lean 4, of the parts of `compatibility_matrix.py` and
`video_probe.py` (repository `easy_ffmpeg`) that the specification's claims
talk about, together with theorems settling those claims.

Modelling conventions:

* External collaborators (the ffmpeg/ffprobe subprocesses, the pyAV
  introspection layer, the filesystem) are passed in as explicit function or
  value parameters; an exception raised by a subprocess call is an explicit
  constructor of the result type.
* Python exceptions raised by the code under analysis are modelled with
  `Except String`; a total Python function is modelled by a total Lean
  function.
* Python string operations used by the code (`lower`, `strip`,
  `replace(" ", "")`, substring `in`, `"," .join`, `<` on strings) are
  modelled by structural functions on the underlying character lists so that
  concrete instances evaluate inside the kernel.  JSON string values are
  `PyVal.str`, JSON integer values are `PyVal.num`; `str()` on an integer is
  its decimal rendering.
-/

namespace EasyFfmpeg

/-! ## Python string primitives -/

/-- Code-point lexicographic `≤` on character lists: the order Python uses to
compare (and `list.sort` uses to sort) strings. -/
def charListLe : List Char → List Char → Bool
  | [], _ => true
  | _ :: _, [] => false
  | a :: as, b :: bs =>
    if a.toNat < b.toNat then true
    else if b.toNat < a.toNat then false
    else charListLe as bs

/-- Python's `<=` on strings. -/
def strLe (a b : String) : Bool := charListLe a.data b.data

/-- Relation form of `strLe`, for use with `List.insertionSort` / `List.Sorted`. -/
def strLeRel : String → String → Prop := fun a b => strLe a b = true

instance : DecidableRel strLeRel :=
  fun a b => inferInstanceAs (Decidable (strLe a b = true))

/-- Python's `str.lower()` (ASCII case folding, as used on codec names). -/
def pyLower (s : String) : String := ⟨s.data.map Char.toLower⟩

/-- Membership of `needle` in `hay` as a contiguous character run:
Python's `needle in hay` on strings. -/
def containsSub (needle : List Char) : List Char → Bool
  | [] => needle.isEmpty
  | c :: rest => needle.isPrefixOf (c :: rest) || containsSub needle rest

/-- Python's `needle in hay` on strings. -/
def strContains (hay needle : String) : Bool := containsSub needle.data hay.data

/-- Python's `str.strip()`: drop leading and trailing whitespace. -/
def pyStrip (s : String) : String :=
  ⟨((s.data.dropWhile Char.isWhitespace).reverse.dropWhile Char.isWhitespace).reverse⟩

/-- Python's `str.replace(" ", "")`: delete every space. -/
def stripSpaces (s : String) : String := ⟨s.data.filter (fun c => !(c == ' '))⟩

/-- Python's `",".join(parts)`. -/
def joinComma : List String → String
  | [] => ""
  | [s] => s
  | s :: rest => s ++ "," ++ joinComma rest

/-! ### Facts about the string primitives -/

theorem charListLe_total : ∀ a b : List Char, charListLe a b = true ∨ charListLe b a = true := by
  intro a
  induction a with
  | nil => intro b; left; rfl
  | cons x xs ih =>
    intro b
    cases b with
    | nil => right; rfl
    | cons y ys =>
      simp only [charListLe]
      rcases Nat.lt_trichotomy x.toNat y.toNat with h | h | h
      · left; rw [if_pos h]
      · rw [if_neg (by omega), if_neg (by omega), if_neg (by omega), if_neg (by omega)]
        exact ih ys
      · right; rw [if_pos h]

theorem charListLe_trans :
    ∀ a b c : List Char, charListLe a b = true → charListLe b c = true → charListLe a c = true := by
  intro a
  induction a with
  | nil => intro b c _ _; rfl
  | cons x xs ih =>
    intro b c h1 h2
    cases b with
    | nil => simp [charListLe] at h1
    | cons y ys =>
      cases c with
      | nil => simp [charListLe] at h2
      | cons z zs =>
        simp only [charListLe] at h1 h2 ⊢
        split_ifs at h1 h2 ⊢ with hxy hyx hyz hzy hxz hzx
        all_goals first
          | rfl
          | omega
          | (exact ih ys zs h1 h2)

instance : IsTotal String strLeRel :=
  ⟨fun a b => charListLe_total a.data b.data⟩

instance : IsTrans String strLeRel :=
  ⟨fun a b c h1 h2 => charListLe_trans a.data b.data c.data h1 h2⟩

theorem char_toLower_idem (c : Char) : c.toLower.toLower = c.toLower := by
  have hval : ∀ (n : Nat) (h : n.isValidChar), (Char.ofNatAux n h).toNat = n := by
    intro n h
    simp [Char.ofNatAux, Char.toNat, UInt32.toNat]
  simp only [Char.toLower]
  split
  · next h =>
    have hv : Nat.isValidChar (c.toNat + 32) := Or.inl (by omega)
    rw [Char.ofNat, dif_pos hv, hval _ hv, if_neg (by omega)]
  · rfl

theorem pyLower_idem (s : String) : pyLower (pyLower s) = pyLower s := by
  simp [pyLower, Function.comp_def, char_toLower_idem]

/-! ## `compatibility_matrix.py` — the compatibility discovery engine

The subprocess runtime is a parameter `run : List String → SubprocessResult`
mapping an argument list to either a completed process (captured stderr and
exit status, as produced by `ffmpegOutput` / `subprocess.run`) or a raised
exception. -/

/-- The media kind argument of `testEncode` (`type` in the source); restricted
to the two keys of `media_specific_options`. -/
inductive MediaKind where
  | video
  | audio
deriving DecidableEq, Repr

/-- Outcome of one `ffmpegOutput` subprocess invocation: a completed run with
captured diagnostics, or a raised exception. -/
inductive SubprocessResult where
  | ok (stderr : String) (returncode : Int)
  | exn (msg : String)
deriving DecidableEq, Repr

/-- The fixed set of known incompatibility phrases scanned for in stderr
(`testEncode`, lines 253-255). -/
def incompatibilityPhrases : List String :=
  ["codec not currently supported in container"]

/-- Model of `media_specific_options[type]` from `testEncode`. -/
def mediaSpecificOptions (codec_name : String) : MediaKind → List String
  | .video =>
    ["-i", "color=c=black:s=64x64:r=25",
     "-frames:v", "1",
     "-c:v", codec_name,
     "-pix_fmt", "yuv420p"]
  | .audio =>
    ["-i", "sine=frequency=1000:duration=1:sample_rate=44100",
     "-c:a", codec_name]

/-- The synthetic probe command line assembled by `testEncode` (line 249);
the non-Windows discard sink. -/
def probeCommand (encoder_format codec_name : String) (kind : MediaKind) : List String :=
  ["ffmpeg", "-hide_banner", "-y", "-f", "lavfi"]
    ++ mediaSpecificOptions codec_name kind
    ++ ["-f", encoder_format, "/dev/null"]

/-- Model of `CompatibilityMatrix.testEncode` (lines 232-261): run the synthetic
encode; classify as incompatible when a known phrase occurs in stderr,
otherwise by exit status; any exception yields `false`. -/
def testEncode (run : List String → SubprocessResult)
    (encoder_format codec_name : String) (kind : MediaKind) : Bool :=
  let command := probeCommand encoder_format codec_name kind
  match run command with
  | .exn _ => false
  | .ok stderr returncode =>
    if incompatibilityPhrases.any (fun msg => strContains stderr msg) then false
    else decide (returncode = 0)

/-- Model of `CompatibilityMatrix.buildCodecList` (lines 61-75): the encode-capable
codec catalog of one kind.  `introspect` models `av.codec.Codec(name, 'w')`:
`none` when the constructor raises, otherwise the codec's `type` string.
A codec whose introspection raises is skipped (`except ... pass`). -/
def buildCodecList (codecs : List String) (introspect : String → Option String)
    (type : String) : List String :=
  codecs.filterMap (fun codec_name =>
    match introspect codec_name with
    | some codec_type => if codec_type = type then some (pyLower codec_name) else none
    | none => none)

/-- The `as_completed` aggregation loop of `getCompatibleCodecs`
(lines 279-287): each future yields a verdict or re-raises the task's
exception; exceptions are caught, logged and skipped, compatible codec names
are appended lower-cased.  (Completion order is modelled as list order; the
only ordering the caller relies on is restored by the later sort.) -/
def aggregateFutureResults (futures : List (String × Except String Bool)) : List String :=
  futures.foldl (fun compatible_codecs fut =>
    match fut.2 with
    | .ok true => compatible_codecs ++ [pyLower fut.1]
    | .ok false => compatible_codecs
    | .error _ => compatible_codecs) []

/-- Model of `CompatibilityMatrix.getCompatibleCodecs` (lines 263-289): probe every
codec of the list and aggregate the verdicts.  `testEncode` is total, so
every future carries `Except.ok` of its verdict. -/
def getCompatibleCodecs (run : List String → SubprocessResult)
    (encoder_name : String) (kind : MediaKind) (codec_list : List String) : List String :=
  aggregateFutureResults
    (codec_list.map (fun codec_name =>
      (codec_name, Except.ok (testEncode run encoder_name codec_name kind))))

/-- One value of the persisted matrix:
`{"codecs": {"video": [...], "audio": [...]}}`. -/
structure MatrixEntry where
  video : List String
  audio : List String
deriving DecidableEq, Repr

/-- Python's `list.sort()` on strings: sort by code-point lexicographic order
(modelled by insertion sort, which produces the same sorted permutation). -/
def sortStrings (l : List String) : List String := List.insertionSort strLeRel l

/-- Model of `CompatibilityMatrix.buildEncoderMatrix` (lines 198-230): one sorted
video and audio codec set per output encoder. -/
def buildEncoderMatrix (run : List String → SubprocessResult)
    (output_encoders codec_list_video codec_list_audio : List String) :
    List (String × MatrixEntry) :=
  output_encoders.map (fun encoder_name =>
    (encoder_name,
      { video := sortStrings (getCompatibleCodecs run encoder_name .video codec_list_video),
        audio := sortStrings (getCompatibleCodecs run encoder_name .audio codec_list_audio) }))

/-- Model of `CompatibilityMatrix.loadCodecMatrix` (lines 48-59): when the persisted
file is absent, print a user-actionable message and return `None`; otherwise
return the parsed file.  The filesystem is the pair
(`matrix_file_exists`, `parsed`); the returned pair is
(loaded matrix, printed lines). -/
def loadCodecMatrix (matrix_file_exists : Bool) (parsed : List (String × MatrixEntry)) :
    Option (List (String × MatrixEntry)) × List String :=
  if !matrix_file_exists then
    (none, ["Codec compatibility matrix not found, use --build-matrix"])
  else
    (some parsed, [])

/-- The encoder attributes obtained from collaborators other than the matrix
(`long_name`, muxer cross-reference, option names, file extensions). -/
structure EncoderAttrs where
  long_name : String
  muxers : List String
  options : List String
  file_extensions : List String
deriving DecidableEq, Repr

/-- Model of `CompatibilityMatrix.getEncoderAttributes` (lines 339-352): `none` when
the encoder fails introspection; otherwise reads
`self.codec_matrix[encoder_name]`, which raises when the matrix is `None`
(`TypeError`) or lacks the key (`KeyError`). -/
def getEncoderAttributes (codec_matrix : Option (List (String × MatrixEntry)))
    (encInfo : String → Option EncoderAttrs) (encoder_name : String) :
    Except String (Option (EncoderAttrs × MatrixEntry)) :=
  match encInfo encoder_name with
  | none => .ok none
  | some attrs =>
    match codec_matrix with
    | none => .error "TypeError: NoneType object is not subscriptable"
    | some matrix =>
      match matrix.lookup encoder_name with
      | none => .error ("KeyError: " ++ encoder_name)
      | some entry => .ok (some (attrs, entry))

/-- Python truthiness of the loaded matrix (`if not self.codec_matrix`):
`None` and the empty mapping are falsy. -/
def pyTruthyMatrix : Option (List (String × MatrixEntry)) → Bool
  | none => false
  | some [] => false
  | some (_ :: _) => true

/-- The row-building loop of `displayEncoderAttributes` (lines 410-423):
an encoder with attributes contributes a row, one without is logged and
skipped, and an exception from the matrix access propagates. -/
def displayRows (codec_matrix : Option (List (String × MatrixEntry)))
    (encInfo : String → Option EncoderAttrs) :
    List String → Except String (List (String × EncoderAttrs × MatrixEntry))
  | [] => .ok []
  | encoder_name :: rest =>
    match getEncoderAttributes codec_matrix encInfo encoder_name with
    | .error msg => .error msg
    | .ok none => displayRows codec_matrix encInfo rest
    | .ok (some attrs) =>
      match displayRows codec_matrix encInfo rest with
      | .error msg => .error msg
      | .ok rows => .ok ((encoder_name, attrs) :: rows)

/-- Model of `CompatibilityMatrix.displayEncoderAttributes` (lines 397-425): on an
unbuilt (or empty) matrix it returns immediately (`.ok none`); otherwise the
table rows (their textual wrapping, pure presentation, is not modelled). -/
def displayEncoderAttributes (codec_matrix : Option (List (String × MatrixEntry)))
    (encInfo : String → Option EncoderAttrs) (encoder_list : List String) :
    Except String (Option (List (String × EncoderAttrs × MatrixEntry))) :=
  if !pyTruthyMatrix codec_matrix then .ok none
  else
    match displayRows codec_matrix encInfo encoder_list with
    | .error msg => .error msg
    | .ok rows => .ok (some rows)

/-! ## `video_probe.py` — transcode parameter resolver and command builder

JSON scalar values flowing through the transcode dictionary are `PyVal`:
ffprobe emits strings for most attributes and integers for dimensions,
`has_b_frames` and `level`; a key holding Python `None` (or an absent key,
which `dict.get` conflates with it everywhere this model is applied) is
`Option.none`. -/

/-- A Python/JSON scalar value. -/
inductive PyVal where
  | str (v : String)
  | num (v : Nat)
deriving DecidableEq, Repr

/-- Python's `str()` on a scalar. -/
def pyStr : PyVal → String
  | .str v => v
  | .num v => toString v

/-- Python truthiness of a scalar: empty string and zero are falsy. -/
def pyTruthyVal : PyVal → Bool
  | .str v => !(v == "")
  | .num v => !(v == 0)

/-- Python truthiness of `dict.get(key)`: `None` (or absent) is falsy. -/
def pyTruthy : Option PyVal → Bool
  | none => false
  | some v => pyTruthyVal v

/-- The transcode dictionary built by `getTranscodeSettingsFromFile` and
consumed by `ffmpegGenerateTranscodeCommand`: one field per key that the
code reads or writes. -/
structure TranscodeData where
  extension : Option PyVal := none
  tags : List (String × String) := []
  video_codec : Option PyVal := none
  video_width : Option PyVal := none
  video_height : Option PyVal := none
  video_pix_fmt : Option PyVal := none
  video_color_space : Option PyVal := none
  video_color_transfer : Option PyVal := none
  video_color_range : Option PyVal := none
  video_color_primaries : Option PyVal := none
  video_chroma_location : Option PyVal := none
  video_level : Option PyVal := none
  video_has_b_frames : Option PyVal := none
  video_profile : Option PyVal := none
  video_bit_rate : Option PyVal := none
  video_time_base : Option PyVal := none
  video_frame_rate : Option PyVal := none
  video_field_order : Option PyVal := none
  audio_codec : Option PyVal := none
  audio_sample_rate : Option PyVal := none
  audio_channels : Option PyVal := none
  audio_channel_layout : Option PyVal := none
  audio_bit_rate : Option PyVal := none
deriving DecidableEq, Repr

/-- One ffprobe video stream object, restricted to the keys read by
`video_transcode_settings` (the `tags.encoder` value is passed separately,
as in `getTranscodeSettingsFromFile`). -/
structure VideoStream where
  codec_name : Option PyVal := none
  width : Option PyVal := none
  height : Option PyVal := none
  pix_fmt : Option PyVal := none
  color_space : Option PyVal := none
  color_transfer : Option PyVal := none
  color_range : Option PyVal := none
  color_primaries : Option PyVal := none
  chroma_location : Option PyVal := none
  level : Option PyVal := none
  has_b_frames : Option PyVal := none
  profile : Option PyVal := none
  bit_rate : Option PyVal := none
  time_base : Option PyVal := none
  r_frame_rate : Option PyVal := none
  field_order : Option PyVal := none
deriving DecidableEq, Repr

/-- Table `self.valid_dnx_bitrates` (lines 66-70). -/
def valid_dnx_bitrates : List Nat :=
  [36, 42, 45, 60, 63, 75, 80, 84, 90, 100, 110, 115,
   120, 145, 175, 180, 185, 220, 240, 290, 350, 365,
   390, 440, 730, 880]

/-- Table `self.prores_profile_map` (lines 71-78). -/
def prores_profile_map : List (String × String) :=
  [("Apple ProRes 422 Proxy", "0"),
   ("Apple ProRes 422 LT", "1"),
   ("Apple ProRes 422", "2"),
   ("Apple ProRes 422 HQ", "3"),
   ("Apple ProRes 4444", "4"),
   ("Apple ProRes 4444 XQ", "5")]

/-- The distance minimised by `snapDnxBitrate`'s key function
`abs(x - input_bitrate / 1e6)`, scaled by the positive constant 1e6 so that
it is exact integer arithmetic (the scaling preserves all comparisons). -/
def dnxDist (input_bits : Nat) (x : Nat) : Nat :=
  ((x : Int) * 1000000 - (input_bits : Int)).natAbs

/-- The left fold underlying Python's `min(list, key=...)`: starting from the
first element, a later element replaces the current best only when its key is
strictly smaller, so the first minimiser wins. -/
def pyMinFold (k : Nat → Nat) (b : Nat) (l : List Nat) : Nat :=
  l.foldl (fun best y => if k y < k best then y else best) b

/-- Python's `min(l, key=k)`: `none` models the `ValueError` on an empty
sequence. -/
def pyMinBy (k : Nat → Nat) : List Nat → Option Nat
  | [] => none
  | x :: xs => some (pyMinFold k x xs)

/-- Model of `float()` applied to a bit-rate value: `None` and non-numeric strings
raise; ffprobe bit rates are decimal integer strings or integers, parsed
exactly. -/
def pyFloatBits : Option PyVal → Except String Nat
  | none => .error "TypeError: float() argument must be a string or a number, not NoneType"
  | some (.num n) => .ok n
  | some (.str s) =>
    match s.toNat? with
    | some n => .ok n
    | none => .error "ValueError: could not convert string to float"

/-- Model of `VideoProbe.snapDnxBitrate` (lines 235-244): convert the raw bit-rate
value to Mbps, pick the nearest entry of `valid_dnx_bitrates` (first wins on
ties), and render as "<rate>M". -/
def snapDnxBitrate (input_bitrate : Option PyVal) : Except String String :=
  match pyFloatBits input_bitrate with
  | .error e => .error e
  | .ok input_bits =>
    match pyMinBy (dnxDist input_bits) valid_dnx_bitrates with
    | none => .error "ValueError: min() arg is an empty sequence"
    | some closest_bitrate => .ok (toString closest_bitrate ++ "M")

/-- Model of `VideoProbe.checkDnxBitrate` (lines 213-219).  (After the merge loop the
`video_bit_rate` key is always present, so `dict.get`'s default never
applies.) -/
def checkDnxBitrate (transcode_data : TranscodeData) : Except String TranscodeData :=
  if transcode_data.video_codec = some (PyVal.str "dnxhd") then
    match snapDnxBitrate transcode_data.video_bit_rate with
    | .error e => .error e
    | .ok new_rate => .ok { transcode_data with video_bit_rate := some (PyVal.str new_rate) }
  else
    .ok transcode_data

/-- Model of `self.prores_profile_map.get(encoder)` from `checkProResProfile`:
`None` for an absent or unrecognized encoder tag. -/
def proresProfileCode (encoder : Option String) : Option String :=
  encoder.bind (fun e => prores_profile_map.lookup e)

/-- Model of `VideoProbe.checkProResProfile` (lines 221-226): replace the profile with
the numeric code when the encoder tag is recognized, otherwise leave the
dictionary untouched. -/
def checkProResProfile (transcode_data : TranscodeData) (encoder : Option String) :
    TranscodeData :=
  if transcode_data.video_codec = some (PyVal.str "prores") then
    match proresProfileCode encoder with
    | some profile_code =>
      if profile_code = "" then transcode_data
      else { transcode_data with video_profile := some (PyVal.str profile_code) }
    | none => transcode_data
  else
    transcode_data

/-- Model of `VideoProbe.checkAS11Profile` (lines 228-233). -/
def checkAS11Profile (transcode_data : TranscodeData) : TranscodeData :=
  if transcode_data.video_codec = some (PyVal.str "mpeg2video") then
    { transcode_data with
      video_profile := none, video_level := none, video_color_transfer := none }
  else
    transcode_data

/-- The field-copy loop of `mergeVideoStreamIntoTranscodeData` (lines
251-256), following `video_transcode_settings`; `has_b_frames` is passed
through `str()` when present. -/
def copyVideoStreamFields (stream : VideoStream) (transcode_data : TranscodeData) :
    TranscodeData :=
  { transcode_data with
    video_codec := stream.codec_name,
    video_width := stream.width,
    video_height := stream.height,
    video_pix_fmt := stream.pix_fmt,
    video_color_space := stream.color_space,
    video_color_transfer := stream.color_transfer,
    video_color_range := stream.color_range,
    video_color_primaries := stream.color_primaries,
    video_chroma_location := stream.chroma_location,
    video_level := stream.level,
    video_has_b_frames := stream.has_b_frames.map (fun v => PyVal.str (pyStr v)),
    video_profile := stream.profile,
    video_bit_rate := stream.bit_rate,
    video_time_base := stream.time_base,
    video_frame_rate := stream.r_frame_rate,
    video_field_order := stream.field_order }

/-- Model of `VideoProbe.mergeVideoStreamIntoTranscodeData` (lines 246-268): copy the
stream fields, fall back to the container bit rate, normalize the profile
string (lower-case, spaces stripped; `.lower()` on an integer profile
raises), then apply the codec-specific corrections in source order. -/
def mergeVideoStreamIntoTranscodeData (stream : VideoStream)
    (transcode_data : TranscodeData) (format_brate : Option PyVal)
    (encoder : Option String) : Except String TranscodeData :=
  let d := copyVideoStreamFields stream transcode_data
  let d := if pyTruthy d.video_bit_rate then d else { d with video_bit_rate := format_brate }
  let normalized : Except String TranscodeData :=
    if pyTruthy d.video_profile then
      match d.video_profile with
      | some (.str profile_str) =>
        .ok { d with video_profile := some (PyVal.str (stripSpaces (pyLower profile_str))) }
      | some (.num _) => .error "AttributeError: int object has no attribute lower"
      | none => .ok d
    else .ok d
  match normalized with
  | .error e => .error e
  | .ok d =>
    match checkDnxBitrate d with
    | .error e => .error e
    | .ok d => .ok (checkAS11Profile (checkProResProfile d encoder))

/-! ### Interlace detection and command generation -/

/-- One stream object of an ffprobe result, restricted to the keys read by
`checkInputFileInterlacing`. -/
structure ProbeStream where
  codec_type : Option String := none
  field_order : Option String := none
deriving DecidableEq, Repr

/-- A parsed ffprobe result.  `ffprobeJsonFromFile` returns `{}` (falsy) when
the subprocess fails, which the callers treat the same as a missing file, so
the collaborator is a function to `Option FFProbeData` with `none` covering
the failure/empty case. -/
structure FFProbeData where
  streams : List ProbeStream := []
deriving DecidableEq, Repr

/-- Model of `VideoProbe.checkInputFileInterlacing` (lines 279-290): despite its name,
the flag is latched `True` when some video stream's `field_order` lower-cases
to "progressive"; `None`/empty path or unreadable metadata give `False`. -/
def checkInputFileInterlacing (input_file : Option String)
    (ffprobe : String → Option FFProbeData) : Bool :=
  match input_file with
  | none => false
  | some path =>
    if path = "" then false
    else
      match ffprobe path with
      | none => false
      | some ffprobe_json =>
        ffprobe_json.streams.any (fun stream =>
          stream.codec_type == some "video"
            && pyLower (stream.field_order.getD "") == "progressive")

/-- Model of `if not input_file: input_file = "[input_file]"` (lines 300-301). -/
def resolveInputPath : Option String → String
  | none => "[input_file]"
  | some s => if s = "" then "[input_file]" else s

/-- The output placeholder `[output_file.<extension>]` (line 303); the
`'mp4'` default of `json_data.get('extension', 'mp4')`. -/
def outputPlaceholder (json_data : TranscodeData) : String :=
  "[output_file." ++ (match json_data.extension with
    | some v => pyStr v
    | none => "mp4") ++ "]"

/-- Model of `if not output_file: output_file = f"[output_file...]"` (lines 302-303). -/
def resolveOutputPath (output_file : Option String) (json_data : TranscodeData) : String :=
  match output_file with
  | none => outputPlaceholder json_data
  | some s => if s = "" then outputPlaceholder json_data else s

/-- The body of the mapping loops (lines 317-322 and 344-349): emit
`[flag, str(value)]` when the value is present and its stripped rendering is
non-empty.  (`cast_func` is `None` or `str` throughout, i.e. always `str`.) -/
def emitFlag (flag : String) (value : Option PyVal) : List String :=
  match value with
  | none => []
  | some v =>
    let value_str := pyStr v
    if pyStrip value_str = "" then [] else [flag, value_str]

/-- Flags emitted for a whole mapping table, in table order. -/
def emitAll : List (String × Option PyVal) → List String
  | [] => []
  | p :: rest => emitFlag p.1 p.2 ++ emitAll rest

/-- Table `self.video_map` (lines 18-33) applied to the dictionary: the fixed
key-to-flag table in its iteration (insertion) order. -/
def videoMapPairs (json_data : TranscodeData) : List (String × Option PyVal) :=
  [("-c:v", json_data.video_codec),
   ("-pix_fmt", json_data.video_pix_fmt),
   ("-colorspace", json_data.video_color_space),
   ("-color_trc", json_data.video_color_transfer),
   ("-color_range", json_data.video_color_range),
   ("-color_primaries", json_data.video_color_primaries),
   ("-profile:v", json_data.video_profile),
   ("-r", json_data.video_frame_rate),
   ("-b:v", json_data.video_bit_rate),
   ("-chroma_sample_location", json_data.video_chroma_location),
   ("-bf", json_data.video_has_b_frames),
   ("-time_base", json_data.video_time_base),
   ("-level:v", json_data.video_level),
   ("-field_order", json_data.video_field_order)]

/-- Table `self.audio_map` (lines 34-40) applied to the dictionary. -/
def audioMapPairs (json_data : TranscodeData) : List (String × Option PyVal) :=
  [("-c:a", json_data.audio_codec),
   ("-ar", json_data.audio_sample_rate),
   ("-ac", json_data.audio_channels),
   ("-channel_layout", json_data.audio_channel_layout),
   ("-b:a", json_data.audio_bit_rate)]

/-- The scale filter part (lines 311-314): present when both dimensions are
truthy. -/
def scaleFilterParts (json_data : TranscodeData) : List String :=
  match json_data.video_width, json_data.video_height with
  | some w, some h =>
    if pyTruthyVal w && pyTruthyVal h then
      ["scale=" ++ pyStr w ++ ":" ++ pyStr h]
    else []
  | _, _ => []

/-- The guard of the deinterlace corrective action (lines 327-330): the
interlace flag is `False` and the target field order is "progressive". -/
def deinterlaceSelected (input_file_interlaced : Bool) (json_data : TranscodeData) : Bool :=
  !input_file_interlaced && (json_data.video_field_order == some (PyVal.str "progressive"))

/-- The guard of the re-interlace corrective action (lines 334-337): the
interlace flag is `True` and the target field order is not "progressive". -/
def reinterlaceSelected (input_file_interlaced : Bool) (json_data : TranscodeData) : Bool :=
  input_file_interlaced && !(json_data.video_field_order == some (PyVal.str "progressive"))

/-- The `-flags +ildct+ilme` insertion (line 337). -/
def interlaceFlagsSegment (input_file_interlaced : Bool) (json_data : TranscodeData) :
    List String :=
  if reinterlaceSelected input_file_interlaced json_data then ["-flags", "+ildct+ilme"]
  else []

/-- The complete `video_filter_parts` list: the scale part (line 314)
followed by the yadif part (line 330) when selected. -/
def filterParts (input_file_interlaced : Bool) (json_data : TranscodeData) : List String :=
  scaleFilterParts json_data
    ++ (if deinterlaceSelected input_file_interlaced json_data then ["yadif=mode=1"] else [])

/-- The `-vf` argument pair (lines 340-341): parts joined with "," when any
exist. -/
def filterGraphSegment (input_file_interlaced : Bool) (json_data : TranscodeData) :
    List String :=
  if (filterParts input_file_interlaced json_data).isEmpty then []
  else ["-vf", joinComma (filterParts input_file_interlaced json_data)]

/-- The metadata pairs (lines 352-354), one `-metadata key=value` per tag in
the mapping's own iteration order. -/
def metaAll : List (String × String) → List String
  | [] => []
  | kv :: rest => ["-metadata", kv.1 ++ "=" ++ kv.2] ++ metaAll rest

/-- Model of `VideoProbe.ffmpegGenerateTranscodeCommand` (lines 292-359), with the
ffprobe collaborator (used on the input path for interlace detection) as a
parameter.  The `command` list is built by the same sequence of appends as
the source. -/
def ffmpegGenerateTranscodeCommand (ffprobe : String → Option FFProbeData)
    (json_data : TranscodeData) (input_file output_file : Option String) : List String :=
  let command := ["ffmpeg", "-y"]
  let input_path := resolveInputPath input_file
  let output_path := resolveOutputPath output_file json_data
  let command := command ++ ["-i", input_path]
  let input_file_interlaced := checkInputFileInterlacing (some input_path) ffprobe
  let video_filter_parts := scaleFilterParts json_data
  let command := (videoMapPairs json_data).foldl
    (fun cmd p => cmd ++ emitFlag p.1 p.2) command
  let video_filter_parts := video_filter_parts
    ++ (if deinterlaceSelected input_file_interlaced json_data then ["yadif=mode=1"] else [])
  let command := command
    ++ (if reinterlaceSelected input_file_interlaced json_data then ["-flags", "+ildct+ilme"]
        else [])
  let command := command
    ++ (if video_filter_parts.isEmpty then [] else ["-vf", joinComma video_filter_parts])
  let command := (audioMapPairs json_data).foldl
    (fun cmd p => cmd ++ emitFlag p.1 p.2) command
  let command := json_data.tags.foldl
    (fun cmd kv => cmd ++ ["-metadata", kv.1 ++ "=" ++ kv.2]) command
  command ++ [output_path]

/-- The argument-list ordering asserted by the specification's
CommandBuilder contract, stated from the spec's words for comparison with
the implementation: "global flags, input, filter graph (scale + deinterlace
combined into one filter expression when both apply), then video flags in
the fixed table order ..., then audio flags ..., then one `-metadata
key=value` pair per tag ..., then output path" — i.e. the filter graph
argument placed before the per-stream flags. -/
def specOrderedTranscodeCommand (ffprobe : String → Option FFProbeData)
    (json_data : TranscodeData) (input_file output_file : Option String) : List String :=
  let input_path := resolveInputPath input_file
  let input_file_interlaced := checkInputFileInterlacing (some input_path) ffprobe
  ["ffmpeg", "-y", "-i", input_path]
    ++ filterGraphSegment input_file_interlaced json_data
    ++ emitAll (videoMapPairs json_data)
    ++ interlaceFlagsSegment input_file_interlaced json_data
    ++ emitAll (audioMapPairs json_data)
    ++ metaAll json_data.tags
    ++ [resolveOutputPath output_file json_data]

/-! ## Helper lemmas -/

theorem aggregateFutureResults_foldl_eq (futures : List (String × Except String Bool)) :
    ∀ acc : List String,
      futures.foldl (fun compatible_codecs fut =>
        match fut.2 with
        | .ok true => compatible_codecs ++ [pyLower fut.1]
        | .ok false => compatible_codecs
        | .error _ => compatible_codecs) acc
      = acc ++ futures.filterMap (fun fut =>
          match fut.2 with
          | .ok true => some (pyLower fut.1)
          | .ok false => none
          | .error _ => none) := by
  induction futures with
  | nil => intro acc; simp
  | cons fut rest ih =>
    intro acc
    obtain ⟨name, res⟩ := fut
    cases res with
    | error e => simpa using ih acc
    | ok b =>
      cases b with
      | false => simpa using ih acc
      | true => simp [ih, List.filterMap_cons]

theorem aggregateFutureResults_eq (futures : List (String × Except String Bool)) :
    aggregateFutureResults futures
      = futures.filterMap (fun fut =>
          match fut.2 with
          | .ok true => some (pyLower fut.1)
          | .ok false => none
          | .error _ => none) := by
  simpa using aggregateFutureResults_foldl_eq futures []

/-! ## The claims -/

/-- C1.  For every container name, codec name and media kind, `testEncode`
returns `False` whenever the subprocess's stderr contains the phrase
"codec not currently supported in container", regardless of the exit status;
in every other non-exceptional case it returns `True` exactly when the exit
status is 0. -/
theorem testEncode_phrase_and_exit_status :
    ∀ (encoder_format codec_name : String) (kind : MediaKind) (stderr : String)
      (returncode : Int),
      (strContains stderr "codec not currently supported in container" = true →
        testEncode (fun _ => .ok stderr returncode) encoder_format codec_name kind = false) ∧
      (strContains stderr "codec not currently supported in container" = false →
        (testEncode (fun _ => .ok stderr returncode) encoder_format codec_name kind = true ↔
          returncode = 0)) := by
  intro encoder_format codec_name kind stderr returncode
  constructor
  · intro h
    simp [testEncode, incompatibilityPhrases, h]
  · intro h
    simp [testEncode, incompatibilityPhrases, h]

/-- C6.  A probe whose subprocess invocation raises yields the verdict
`false`, and the aggregation loop is a total function of the future results
in which an exception-carrying future contributes nothing (it never
propagates). -/
theorem probe_fail_closed :
    (∀ (encoder_format codec_name : String) (kind : MediaKind) (msg : String),
      testEncode (fun _ => .exn msg) encoder_format codec_name kind = false) ∧
    (∀ futures : List (String × Except String Bool),
      aggregateFutureResults futures
        = futures.filterMap (fun fut =>
            match fut.2 with
            | .ok true => some (pyLower fut.1)
            | .ok false => none
            | .error _ => none)) ∧
    (∀ (codec_name msg : String) (futures : List (String × Except String Bool)),
      aggregateFutureResults (futures ++ [(codec_name, .error msg)])
        = aggregateFutureResults futures) := by
  refine ⟨fun _ _ _ _ => rfl, aggregateFutureResults_eq, ?_⟩
  intro codec_name msg futures
  rw [aggregateFutureResults_eq, aggregateFutureResults_eq, List.filterMap_append]
  simp

/-- C8.  When the persisted matrix file does not exist, loading returns the
distinct `None` signal together with the user-actionable message, and
displaying attributes against the unbuilt matrix returns early instead of
raising. -/
theorem unbuilt_matrix_recoverable :
    (∀ parsed : List (String × MatrixEntry),
      loadCodecMatrix false parsed =
        (none, ["Codec compatibility matrix not found, use --build-matrix"])) ∧
    (∀ (encInfo : String → Option EncoderAttrs) (encoder_list : List String),
      displayEncoderAttributes none encInfo encoder_list = .ok none) := by
  exact ⟨fun _ => rfl, fun _ _ => rfl⟩

/-- C9.  `checkInputFileInterlacing` returns `True` exactly when the probed
metadata contains a video stream whose `field_order` lower-cases to
"progressive"; a missing path or unreadable metadata yields `False` — the
flag the command generator consumes as "input is interlaced" is therefore set
by a progressive field order. -/
theorem interlace_flag_inverted_semantics :
    ∀ (input_file : Option String) (ffprobe : String → Option FFProbeData),
      checkInputFileInterlacing input_file ffprobe = true ↔
        ∃ path, input_file = some path ∧ path ≠ "" ∧
          ∃ probe_json, ffprobe path = some probe_json ∧
            ∃ stream ∈ probe_json.streams,
              stream.codec_type = some "video" ∧
              pyLower (stream.field_order.getD "") = "progressive" := by
  intro input_file ffprobe
  cases input_file with
  | none => simp [checkInputFileInterlacing]
  | some path =>
    by_cases hp : path = ""
    · subst hp
      simp [checkInputFileInterlacing]
    · simp only [checkInputFileInterlacing, if_neg hp]
      cases hpr : ffprobe path with
      | none => simp [hp, hpr]
      | some probe_json =>
        simp [hp, hpr, List.any_eq_true, and_assoc]

/-- The stream of C10's failing input: a dnxhd video stream reporting no
bit rate. -/
def dnxhdStream0 : VideoStream := { codec_name := some (PyVal.str "dnxhd") }

/-- C10.  For a dnxhd stream with no stream-level bit rate, when the
container also declares no bit rate, the DNx snapping step is applied to the
empty (None) value and resolution raises (`float(None)`) instead of
producing a profile. -/
theorem dnx_missing_bitrate_raises :
    snapDnxBitrate none =
      .error "TypeError: float() argument must be a string or a number, not NoneType" ∧
    mergeVideoStreamIntoTranscodeData dnxhdStream0 {} none none =
      .error "TypeError: float() argument must be a string or a number, not NoneType" :=
  ⟨rfl, rfl⟩

/-- The stream of C5's counterexample: a prores video stream carrying a
profile string but probed with no encoder tag. -/
def proresStream0 : VideoStream :=
  { codec_name := some (PyVal.str "prores"), profile := some (PyVal.str "HQ") }

/-- The profile resolution of `proresStream0`: the source profile string is
kept (lower-cased), not unset. -/
def proresMerged0 : TranscodeData :=
  { video_codec := some (PyVal.str "prores"), video_profile := some (PyVal.str "hq") }

/-- C5, counterexample.  Claim text: "for every absent or unrecognized
encoder tag the profile is left unset (no profile value in the resulting
profile)".  A prores stream with source profile "HQ" and an absent encoder
tag resolves with the profile still present (the normalized source string
"hq"). -/
theorem prores_unset_profile_counterexample :
    mergeVideoStreamIntoTranscodeData proresStream0 {} none none = .ok proresMerged0 ∧
    proresMerged0.video_profile ≠ none :=
  ⟨rfl, by decide⟩

/-- C5, amended.  For a prores target, a recognized encoder tag replaces the
profile by the numeric code of the fixed table, and an absent or unrecognized
tag leaves the profile unchanged (the previously resolved profile value,
which may be present). -/
theorem prores_profile_mapping (d : TranscodeData) (name code : String)
    (encoder : Option String)
    (hmap : (name, code) ∈ prores_profile_map)
    (henc : proresProfileCode encoder = none) :
    (checkProResProfile { d with video_codec := some (PyVal.str "prores") }
        (some name)).video_profile = some (PyVal.str code) ∧
    (checkProResProfile { d with video_codec := some (PyVal.str "prores") }
        encoder).video_profile = d.video_profile := by
  constructor
  · fin_cases hmap <;>
      simp [checkProResProfile, proresProfileCode, prores_profile_map, List.lookup]
  · simp [checkProResProfile, henc]

/-- Witness for C5's amended theorem at the tag "Apple ProRes 422 HQ" and the
unrecognized tag "bogus". -/
theorem prores_profile_mapping_witness :
    (("Apple ProRes 422 HQ", "3") ∈ prores_profile_map ∧
      proresProfileCode (some "bogus") = none) ∧
    ((checkProResProfile { ({} : TranscodeData) with
        video_codec := some (PyVal.str "prores") } (some "Apple ProRes 422 HQ")).video_profile
        = some (PyVal.str "3") ∧
     (checkProResProfile { ({} : TranscodeData) with
        video_codec := some (PyVal.str "prores") } (some "bogus")).video_profile
        = ({} : TranscodeData).video_profile) :=
  ⟨⟨by decide, by decide⟩,
    prores_profile_mapping {} "Apple ProRes 422 HQ" "3" (some "bogus") (by decide) (by decide)⟩

/-- The tail of `valid_dnx_bitrates` after its head 36. -/
def valid_dnx_tail : List Nat :=
  [42, 45, 60, 63, 75, 80, 84, 90, 100, 110, 115,
   120, 145, 175, 180, 185, 220, 240, 290, 350, 365,
   390, 440, 730, 880]

theorem valid_dnx_eq : valid_dnx_bitrates = 36 :: valid_dnx_tail := rfl

/-- Python's `min` fold keeps the first element attaining the minimal key:
over a strictly increasing tail whose elements all exceed the seed, the
result is in the scanned prefix, attains the minimal key, and on key ties is
the smaller (earlier) value. -/
theorem pyMinFold_spec (k : Nat → Nat) :
    ∀ (l : List Nat) (b : Nat), (∀ x ∈ l, b < x) → l.Pairwise (· < ·) →
      (pyMinFold k b l = b ∨ pyMinFold k b l ∈ l) ∧
      (k (pyMinFold k b l) < k b ∨ (k (pyMinFold k b l) = k b ∧ pyMinFold k b l ≤ b)) ∧
      (∀ x ∈ l, k (pyMinFold k b l) < k x ∨
        (k (pyMinFold k b l) = k x ∧ pyMinFold k b l ≤ x)) := by
  intro l
  induction l with
  | nil =>
    intro b _ _
    refine ⟨Or.inl rfl, Or.inr ⟨rfl, le_refl b⟩, ?_⟩
    intro x hx
    exact absurd hx (List.not_mem_nil x)
  | cons y ys ih =>
    intro b hb hp
    rw [List.pairwise_cons] at hp
    obtain ⟨hyys, hpys⟩ := hp
    have hfold : pyMinFold k b (y :: ys) = pyMinFold k (if k y < k b then y else b) ys := rfl
    by_cases hk : k y < k b
    · rw [if_pos hk] at hfold
      obtain ⟨hm, hvb, hall⟩ := ih y hyys hpys
      rw [hfold]
      refine ⟨?_, ?_, ?_⟩
      · rcases hm with h | h
        · right; rw [h]; exact List.mem_cons_self y ys
        · exact Or.inr (List.mem_cons_of_mem y h)
      · rcases hvb with h | ⟨h, _⟩ <;> [left; left] <;> omega
      · intro x hx
        rcases List.mem_cons.mp hx with rfl | hx'
        · exact hvb
        · exact hall x hx'
    · rw [if_neg hk] at hfold
      have hbys : ∀ x ∈ ys, b < x := fun x hx => hb x (List.mem_cons_of_mem y hx)
      obtain ⟨hm, hvb, hall⟩ := ih b hbys hpys
      rw [hfold]
      refine ⟨?_, hvb, ?_⟩
      · rcases hm with h | h
        · exact Or.inl h
        · exact Or.inr (List.mem_cons_of_mem y h)
      · intro x hx
        rcases List.mem_cons.mp hx with rfl | hx'
        · have hbx : b < x := hb x (List.mem_cons_self x ys)
          have hkb : k b ≤ k x := Nat.not_lt.mp hk
          rcases hvb with h | ⟨heq, hle⟩
          · left; omega
          · by_cases hlt : k b < k x
            · left; omega
            · right; omega
        · exact hall x hx'

/-- Evaluation of `snapDnxBitrate` on a numeric bit rate: the result is the nearest table
value (distances compared at the exact, 1e6-scaled level), ties resolved to
the smaller value, rendered "<rate>M". -/
theorem snapDnxBitrate_num (input : Nat) :
    ∃ c ∈ valid_dnx_bitrates,
      snapDnxBitrate (some (PyVal.num input)) = .ok (toString c ++ "M") ∧
      ∀ y ∈ valid_dnx_bitrates,
        dnxDist input c < dnxDist input y ∨
          (dnxDist input c = dnxDist input y ∧ c ≤ y) := by
  have hrest : ∀ x ∈ valid_dnx_tail, 36 < x := by decide
  have hpair : valid_dnx_tail.Pairwise (· < ·) := by decide
  obtain ⟨hm, hvb, hall⟩ := pyMinFold_spec (dnxDist input) valid_dnx_tail 36 hrest hpair
  refine ⟨pyMinFold (dnxDist input) 36 valid_dnx_tail, ?_, ?_, ?_⟩
  · rw [valid_dnx_eq]
    rcases hm with h | h
    · rw [h]; exact List.mem_cons_self _ _
    · exact List.mem_cons_of_mem _ h
  · rfl
  · intro y hy
    rw [valid_dnx_eq] at hy
    rcases List.mem_cons.mp hy with rfl | hy'
    · exact hvb
    · exact hall y hy'

set_option maxRecDepth 8192 in
/-- C2.  For a dnxhd target, the resolved video bit rate is the element of
the fixed DNx table nearest to the input bit rate (in Mbps; comparisons are
made exactly, scaled by 1e6), midpoints resolving to the smaller value,
rendered "<rate>M"; in particular 100,000,000 → "100M" and
70,000,000 → "75M". -/
theorem dnx_bitrate_snapping :
    ∀ input : Nat,
      (∃ c ∈ valid_dnx_bitrates,
        snapDnxBitrate (some (PyVal.num input)) = .ok (toString c ++ "M") ∧
        (∀ d : TranscodeData,
          checkDnxBitrate { d with video_codec := some (PyVal.str "dnxhd"),
                                   video_bit_rate := some (PyVal.num input) }
            = .ok { d with video_codec := some (PyVal.str "dnxhd"),
                           video_bit_rate := some (PyVal.str (toString c ++ "M")) }) ∧
        (∀ y ∈ valid_dnx_bitrates,
          dnxDist input c < dnxDist input y ∨
            (dnxDist input c = dnxDist input y ∧ c ≤ y))) ∧
      snapDnxBitrate (some (PyVal.num 100000000)) = .ok "100M" ∧
      snapDnxBitrate (some (PyVal.num 70000000)) = .ok "75M" := by
  intro input
  obtain ⟨c, hc, hsnap, hnear⟩ := snapDnxBitrate_num input
  refine ⟨⟨c, hc, hsnap, ?_, hnear⟩, rfl, rfl⟩
  intro d
  simp [checkDnxBitrate, hsnap]

theorem foldl_emitFlag_eq (ps : List (String × Option PyVal)) :
    ∀ acc : List String,
      ps.foldl (fun cmd p => cmd ++ emitFlag p.1 p.2) acc = acc ++ emitAll ps := by
  induction ps with
  | nil => intro acc; simp [emitAll]
  | cons p rest ih => intro acc; simp [emitAll, ih]

theorem foldl_metadata_eq (tags : List (String × String)) :
    ∀ acc : List String,
      tags.foldl (fun cmd kv => cmd ++ ["-metadata", kv.1 ++ "=" ++ kv.2]) acc
        = acc ++ metaAll tags := by
  induction tags with
  | nil => intro acc; simp [metaAll]
  | cons kv rest ih => intro acc; simp [metaAll, ih]

/-- The generated command as segment concatenation: global flags, input
path, video flags in table order, re-interlace flags when selected, the
combined filter-graph argument, audio flags in table order, metadata pairs
in tag order, output path. -/
theorem generate_eq_segments (ffprobe : String → Option FFProbeData)
    (json_data : TranscodeData) (input_file output_file : Option String) :
    ffmpegGenerateTranscodeCommand ffprobe json_data input_file output_file =
      ["ffmpeg", "-y", "-i", resolveInputPath input_file]
        ++ emitAll (videoMapPairs json_data)
        ++ interlaceFlagsSegment
              (checkInputFileInterlacing (some (resolveInputPath input_file)) ffprobe) json_data
        ++ filterGraphSegment
              (checkInputFileInterlacing (some (resolveInputPath input_file)) ffprobe) json_data
        ++ emitAll (audioMapPairs json_data)
        ++ metaAll json_data.tags
        ++ [resolveOutputPath output_file json_data] := by
  simp only [ffmpegGenerateTranscodeCommand]
  rw [foldl_emitFlag_eq, foldl_emitFlag_eq, foldl_metadata_eq]
  simp [interlaceFlagsSegment, filterGraphSegment, filterParts]

/-- C4, amended.  The generated argument list is ordered: global flags, the
input path, the video flags in the fixed video field-mapping table order,
the re-interlace encoder flags when selected, the filter-graph argument
(scale and deinterlace combined into one filter expression when both apply),
the audio flags in the fixed audio table order, one `-metadata key=value`
pair per tag in the tag mapping's own iteration order, and the output path.
(The claim placed the filter-graph argument before the video flags; the code
emits it after them.) -/
theorem transcode_command_segment_order :
    ∀ (ffprobe : String → Option FFProbeData) (json_data : TranscodeData)
      (input_file output_file : Option String),
      ffmpegGenerateTranscodeCommand ffprobe json_data input_file output_file =
        ["ffmpeg", "-y", "-i", resolveInputPath input_file]
          ++ emitAll (videoMapPairs json_data)
          ++ interlaceFlagsSegment
                (checkInputFileInterlacing (some (resolveInputPath input_file)) ffprobe)
                json_data
          ++ filterGraphSegment
                (checkInputFileInterlacing (some (resolveInputPath input_file)) ffprobe)
                json_data
          ++ emitAll (audioMapPairs json_data)
          ++ metaAll json_data.tags
          ++ [resolveOutputPath output_file json_data] :=
  fun ffprobe json_data input_file output_file =>
    generate_eq_segments ffprobe json_data input_file output_file

/-- The profile of C4's counterexample: a transcode profile with both a
scale filter (width and height present) and a video-table flag (the codec). -/
def c4Data0 : TranscodeData :=
  { extension := some (PyVal.str "mp4"),
    video_codec := some (PyVal.str "h264"),
    video_width := some (PyVal.num 1920),
    video_height := some (PyVal.num 1080),
    video_field_order := some (PyVal.str "progressive") }

/-- C4, counterexample.  At a concrete profile the code emits the video
flags before the `-vf` filter-graph argument, while the claimed ordering
(`specOrderedTranscodeCommand`, the spec's wording) places the filter graph
first: the two argument lists differ. -/
theorem transcode_command_order_counterexample :
    ffmpegGenerateTranscodeCommand (fun _ => none) c4Data0 (some "in.mov") (some "out.mp4")
      = ["ffmpeg", "-y", "-i", "in.mov", "-c:v", "h264", "-field_order", "progressive",
         "-vf", "scale=1920:1080,yadif=mode=1", "out.mp4"] ∧
    specOrderedTranscodeCommand (fun _ => none) c4Data0 (some "in.mov") (some "out.mp4")
      = ["ffmpeg", "-y", "-i", "in.mov", "-vf", "scale=1920:1080,yadif=mode=1",
         "-c:v", "h264", "-field_order", "progressive", "out.mp4"] ∧
    ffmpegGenerateTranscodeCommand (fun _ => none) c4Data0 (some "in.mov") (some "out.mp4")
      ≠ specOrderedTranscodeCommand (fun _ => none) c4Data0 (some "in.mov") (some "out.mp4") :=
  ⟨rfl, rfl, by decide⟩

/-- C3.  For every (interlace-flag, target field order) pair at most one of
the two corrective actions — appending the yadif deinterlace filter,
appending the `+ildct+ilme` re-interlace flags — is selected; the selections
are exactly what the generated command carries; and when the interlace flag
is set and the target field order is "progressive", neither action is
selected. -/
theorem interlace_actions_mutually_exclusive :
    ∀ (input_file_interlaced : Bool) (json_data : TranscodeData),
      (deinterlaceSelected input_file_interlaced json_data = false ∨
        reinterlaceSelected input_file_interlaced json_data = false) ∧
      (("yadif=mode=1" ∈ filterParts input_file_interlaced json_data ↔
          deinterlaceSelected input_file_interlaced json_data = true) ∧
        (interlaceFlagsSegment input_file_interlaced json_data ≠ [] ↔
          reinterlaceSelected input_file_interlaced json_data = true)) ∧
      (deinterlaceSelected true
          { json_data with video_field_order := some (PyVal.str "progressive") } = false ∧
        reinterlaceSelected true
          { json_data with video_field_order := some (PyVal.str "progressive") } = false) := by
  intro b json_data
  refine ⟨?_, ⟨?_, ?_⟩, ?_, ?_⟩
  · cases b <;> simp [deinterlaceSelected, reinterlaceSelected]
  · have hscale : "yadif=mode=1" ∉ scaleFilterParts json_data := by
      unfold scaleFilterParts
      cases hw : json_data.video_width with
      | none => simp
      | some w =>
        cases hh : json_data.video_height with
        | none => simp
        | some h =>
          by_cases ht : pyTruthyVal w && pyTruthyVal h
          · simp only [ht, if_pos]
            intro hmem
            rcases List.mem_singleton.mp hmem with heq
            have := congrArg String.data heq.symm
            simp [String.data_append] at this
          · simp [ht]
    unfold filterParts
    by_cases hd : deinterlaceSelected b json_data
    · simp [hd, hscale]
    · simp [hd, hscale]
  · unfold interlaceFlagsSegment
    by_cases hr : reinterlaceSelected b json_data
    · simp [hr]
    · simp [hr]
  · simp [deinterlaceSelected]
  · simp [reinterlaceSelected]

theorem mem_getCompatibleCodecs {run : List String → SubprocessResult}
    {encoder_name : String} {kind : MediaKind} {codec_list : List String} {s : String}
    (hs : s ∈ getCompatibleCodecs run encoder_name kind codec_list) :
    ∃ cn ∈ codec_list, s = pyLower cn := by
  rw [getCompatibleCodecs, aggregateFutureResults_eq, List.filterMap_map] at hs
  obtain ⟨cn, hcn, hmatch⟩ := List.mem_filterMap.mp hs
  refine ⟨cn, hcn, ?_⟩
  simp only [Function.comp_apply] at hmatch
  cases hv : testEncode run encoder_name cn kind with
  | true => rw [hv] at hmatch; exact (Option.some.injEq _ _ ▸ hmatch).symm
  | false => rw [hv] at hmatch; exact absurd hmatch (by simp)

theorem mem_buildCodecList {codecs : List String} {introspect : String → Option String}
    {type cn : String} (h : cn ∈ buildCodecList codecs introspect type) :
    ∃ orig ∈ codecs, introspect orig = some type ∧ cn = pyLower orig := by
  rw [buildCodecList] at h
  obtain ⟨orig, ho, hm⟩ := List.mem_filterMap.mp h
  cases hi : introspect orig with
  | none => rw [hi] at hm; exact absurd hm (by simp)
  | some codec_type =>
    rw [hi] at hm
    replace hm : (if codec_type = type then some (pyLower orig) else none) = some cn := hm
    by_cases ht : codec_type = type
    · rw [if_pos ht] at hm
      exact ⟨orig, ho, ht ▸ hi, ((Option.some.injEq _ _).mp hm).symm⟩
    · rw [if_neg ht] at hm
      exact absurd hm (by simp)

theorem mem_sorted_entry_invariant {codecs : List String}
    {introspect : String → Option String} {run : List String → SubprocessResult}
    {encoder_name : String} {kind : MediaKind} {type : String} {s : String}
    (hs : s ∈ sortStrings
      (getCompatibleCodecs run encoder_name kind (buildCodecList codecs introspect type))) :
    s ∈ buildCodecList codecs introspect type ∧ pyLower s = s ∧
    ∃ orig ∈ codecs, introspect orig = some type ∧ s = pyLower orig := by
  have hs' : s ∈ getCompatibleCodecs run encoder_name kind
      (buildCodecList codecs introspect type) :=
    (List.perm_insertionSort strLeRel _).mem_iff.mp hs
  obtain ⟨cn, hcn, rfl⟩ := mem_getCompatibleCodecs hs'
  obtain ⟨orig, ho, hio, rfl⟩ := mem_buildCodecList hcn
  rw [pyLower_idem]
  exact ⟨hcn, pyLower_idem orig, orig, ho, hio, rfl⟩

/-- C7.  Every entry of a built compatibility matrix has its video and audio
codec lists sorted, lower-cased truncations of the encode-capable catalog of
the corresponding kind; every listed name originates from a codec that
passed catalog introspection with that kind. -/
theorem matrix_entry_invariants (codecs : List String)
    (introspect : String → Option String) (run : List String → SubprocessResult)
    (output_encoders : List String) (encoder_name : String) (entry : MatrixEntry)
    (hmem : (encoder_name, entry) ∈
      buildEncoderMatrix run output_encoders
        (buildCodecList codecs introspect "video")
        (buildCodecList codecs introspect "audio")) :
    List.Sorted strLeRel entry.video ∧ List.Sorted strLeRel entry.audio ∧
    (∀ s ∈ entry.video,
      s ∈ buildCodecList codecs introspect "video" ∧ pyLower s = s ∧
      ∃ orig ∈ codecs, introspect orig = some "video" ∧ s = pyLower orig) ∧
    (∀ s ∈ entry.audio,
      s ∈ buildCodecList codecs introspect "audio" ∧ pyLower s = s ∧
      ∃ orig ∈ codecs, introspect orig = some "audio" ∧ s = pyLower orig) := by
  rw [buildEncoderMatrix] at hmem
  obtain ⟨e, _, heq⟩ := List.mem_map.mp hmem
  obtain ⟨heq1, heq2⟩ := Prod.mk.injEq .. ▸ heq
  subst heq1
  rw [← heq2]
  refine ⟨List.sorted_insertionSort strLeRel _, List.sorted_insertionSort strLeRel _, ?_, ?_⟩
  · intro s hs
    exact mem_sorted_entry_invariant hs
  · intro s hs
    exact mem_sorted_entry_invariant hs

/-- The introspection collaborator of C7's witness: one video codec, one
audio codec, one codec failing introspection. -/
def c7Introspect0 : String → Option String :=
  fun n => if n = "H264" then some "video" else if n = "AAC" then some "audio" else none

/-- Witness for C7 at a one-encoder catalog. -/
theorem matrix_entry_invariants_witness :
    (("mp4", ({ video := ["h264"], audio := ["aac"] } : MatrixEntry)) ∈
      buildEncoderMatrix (fun _ => SubprocessResult.ok "" 0) ["mp4"]
        (buildCodecList ["H264", "AAC", "zzz"] c7Introspect0 "video")
        (buildCodecList ["H264", "AAC", "zzz"] c7Introspect0 "audio")) ∧
    (List.Sorted strLeRel ({ video := ["h264"], audio := ["aac"] } : MatrixEntry).video ∧
     List.Sorted strLeRel ({ video := ["h264"], audio := ["aac"] } : MatrixEntry).audio ∧
     (∀ s ∈ ({ video := ["h264"], audio := ["aac"] } : MatrixEntry).video,
        s ∈ buildCodecList ["H264", "AAC", "zzz"] c7Introspect0 "video" ∧ pyLower s = s ∧
        ∃ orig ∈ ["H264", "AAC", "zzz"], c7Introspect0 orig = some "video" ∧
          s = pyLower orig) ∧
     (∀ s ∈ ({ video := ["h264"], audio := ["aac"] } : MatrixEntry).audio,
        s ∈ buildCodecList ["H264", "AAC", "zzz"] c7Introspect0 "audio" ∧ pyLower s = s ∧
        ∃ orig ∈ ["H264", "AAC", "zzz"], c7Introspect0 orig = some "audio" ∧
          s = pyLower orig)) :=
  ⟨by decide,
    matrix_entry_invariants ["H264", "AAC", "zzz"] c7Introspect0
      (fun _ => SubprocessResult.ok "" 0) ["mp4"] "mp4"
      { video := ["h264"], audio := ["aac"] } (by decide)⟩
